import Mathlib

/-!
Verification of the Kyo reverse proxy (src/index.js and the single-process
variant src/unnamed/part_000, `createBareHandler`).

The two entry points are shallowly embedded as pure functions over an explicit
cache state (`St`), an oracle structure for the external collaborators
(`Collab`: puppeteer cluster, undici fetch, TextDecoder, zlib, bare server,
serve-static, prom-client) and a millisecond clock.  Each handler run returns
the list of observable events it performed (responses, metric observations,
cache-tier accesses, backend invocations) together with the updated cache
state and a flag recording whether an exception escaped the handler.
-/

set_option linter.unusedVariables false

namespace Kyo

/-- Byte buffers (the `ArrayBuffer` a fetch body yields) are lists of bytes. -/
abbrev Bytes := List Nat

/-! ### JavaScript string / truthiness helpers -/

/-- `beginsWith pat s`: the character list `s` starts with `pat`. -/
def beginsWith : List Char → List Char → Bool
  | [], _ => true
  | _ :: _, [] => false
  | a :: as, b :: bs => (a == b) && beginsWith as bs

/-- `String.prototype.includes(pat)`: `pat` occurs somewhere in `s`. -/
def containsSub : List Char → List Char → Bool
  | [], pat => beginsWith pat []
  | c :: rest, pat => beginsWith pat (c :: rest) || containsSub rest pat

/-- `url.startsWith(p)` (executable model over the character list). -/
def strStarts (p s : String) : Bool := beginsWith p.toList s.toList

/-- `s.slice(n)` / dropping the first `n` characters of a string. -/
def strDrop (s : String) (n : Nat) : String := String.mk (s.toList.drop n)

/-- Truthiness of a JS string-or-nullish value:
`undefined`/`null` (here `none`) and the empty string are falsy. -/
def jsTruthy : Option String → Bool
  | none => false
  | some s => !(decide (s = ""))

/-- JS `a || b` on string-or-nullish values. -/
def jsOr (a b : Option String) : Option String :=
  if jsTruthy a then a else b

/-! ### Query-string parsing

`new URL('http://dummy' + url).searchParams.get('url')` — modelled without
percent-decoding, which preserves presence/emptiness of the parameter (a
non-empty raw value never percent-decodes to the empty string). -/

/-- Split a character list on `&`. -/
def splitAmpGo : List Char → List Char → List (List Char)
  | [], acc => [acc.reverse]
  | c :: rest, acc =>
    if c == '&' then acc.reverse :: splitAmpGo rest [] else splitAmpGo rest (c :: acc)

/-- The query portion of a request URL: after the first `?`, before any `#`. -/
def queryOf (url : List Char) : List Char :=
  ((url.dropWhile (fun c => !(c == '?'))).drop 1).takeWhile (fun c => !(c == '#'))

/-- `searchParams.get(nm)`: first `&`-separated pair whose key is `nm`; a key
with no `=` yields the empty string, a missing key yields `none`. -/
def getParam (url nm : String) : Option String :=
  match (splitAmpGo (queryOf url.toList) []).find?
      (fun p => p.takeWhile (fun c => !(c == '=')) == nm.toList) with
  | some p => some (String.mk ((p.dropWhile (fun c => !(c == '='))).drop 1))
  | none => none

/-! ### Charset extraction and decoding (the decode-proxy branch)

`(rsp.headers.get('content-type') || '').match(/charset=([^;]+)/i)` and
`new TextDecoder(cs)`.  A `TextDecoder` constructor throws on an unknown
label; `decode` with default options never throws (it substitutes
replacement characters), so decoder failure is modelled at construction:
`mkDecoder label = none` means `new TextDecoder(label)` threw. -/

def charsetTok : List Char := "charset=".toList

/-- Case-insensitive `beginsWith` (the regex carries the `i` flag). -/
def beginsWithCI : List Char → List Char → Bool
  | [], _ => true
  | _ :: _, [] => false
  | a :: as, b :: bs => (a.toLower == b.toLower) && beginsWithCI as bs

/-- Leftmost match of `/charset=([^;]+)/i`: scan left to right; at a position
where `charset=` matches, the capture is the maximal run of non-`;`
characters after it and must be non-empty, otherwise scanning continues. -/
def findCharsetL : List Char → Option (List Char)
  | [] => none
  | c :: rest =>
    if beginsWithCI charsetTok (c :: rest) then
      let cap := (List.drop 8 (c :: rest)).takeWhile (fun x => !(x == ';'))
      if cap.isEmpty then findCharsetL rest else some cap
    else findCharsetL rest

/-- `const cs = m ? m[1].toLowerCase() : 'utf-8'` (ASCII lower-casing). -/
def extractCharset (ct : Option String) : String :=
  match findCharsetL (ct.getD "").toList with
  | some cap => String.mk (cap.map Char.toLower)
  | none => "utf-8"

/-- `try { text = new TextDecoder(cs).decode(buf) }
     catch { text = new TextDecoder('utf-8').decode(buf) }`.
`none` means even the catch block's decoder construction threw (impossible
for a real `TextDecoder`, whose `'utf-8'` label is always valid). -/
def decodeText (mk : String → Option (Bytes → String)) (cs : String) (buf : Bytes) :
    Option String :=
  match mk cs with
  | some dec => some (dec buf)
  | none =>
    match mk "utf-8" with
    | some dec => some (dec buf)
    | none => none

/-! ### The meta-charset rewrite

`html.replace(/<meta[^>]+charset=[^>]+>/i, '<meta charset="utf-8">')`.

A match of the (case-insensitive, backtracking) pattern starting at a given
position ends at the first `>` after `<meta`; it exists exactly when that
`>` exists and `charset=` occurs inside the non-`>` run at offset at least 1
with at least one further non-`>` character before the closing `>`. -/

def metaTok : List Char := "<meta".toList

/-- Is there a `q ≥ 1` with `charset=` (case-insensitive) at offset `q` of
`run` and at least one character of `run` left after it? -/
def hasCharsetInner : List Char → Bool
  | [] => false
  | _ :: rest =>
    (beginsWithCI charsetTok rest && decide (8 < rest.length)) || hasCharsetInner rest

/-- Length of the regex match at the head of `s`, if any. -/
def matchLen (s : List Char) : Option Nat :=
  if beginsWithCI metaTok s then
    let rest := s.drop 5
    let run := rest.takeWhile (fun c => !(c == '>'))
    if run.length < rest.length && hasCharsetInner run then
      some (5 + run.length + 1)
    else none
  else none

/-- Leftmost match of the meta-charset pattern: start index and length. -/
def findMeta : List Char → Option (Nat × Nat)
  | [] => none
  | c :: rest =>
    match matchLen (c :: rest) with
    | some len => some (0, len)
    | none =>
      match findMeta rest with
      | some (i, len) => some (i + 1, len)
      | none => none

/-- The replacement text `<meta charset="utf-8">`. -/
def canonMeta : List Char := "<meta charset=\"utf-8\">".toList

/-- `String.prototype.replace` with a non-global regex: replace the leftmost
match, if any. -/
def normMetaL (s : List Char) : List Char :=
  match findMeta s with
  | some (i, len) => s.take i ++ canonMeta ++ s.drop (i + len)
  | none => s

/-- The charset-normalization rewrite applied to a decoded document. -/
def normalizeMeta (s : String) : String := String.mk (normMetaL s.toList)

/-! ### Two-tier cache (lru-cache + ioredis)

`new LRU({ max: 500, ttl: 1000 * 60 * 2 })` and `redis.set(k, v, 'EX', ttl)`.
The local tier keeps entries in recency order (newest first) with a fixed
capacity and fixed TTL in milliseconds; the remote tier expires entries
after a caller-chosen TTL in seconds. -/

structure MemEntry where
  value : String
  start : Nat
  deriving Repr, DecidableEq

structure St where
  mem : List (String × MemEntry)
  rds : List (String × String × Nat × Nat)
  deriving Repr, DecidableEq

def memTtlMs : Nat := 1000 * 60 * 2
def memMax : Nat := 500

def memFind (mem : List (String × MemEntry)) (k : String) : Option (String × MemEntry) :=
  mem.find? (fun p => decide (p.1 = k))

/-- `memCache.get(k)`: present and not stale (age within the fixed TTL). -/
def memGet (mem : List (String × MemEntry)) (now : Nat) (k : String) : Option String :=
  match memFind mem k with
  | some p => if now - p.2.start ≤ memTtlMs then some p.2.value else none
  | none => none

/-- `memCache.set(k, v)`: insert at the most-recent end, evicting beyond the
capacity bound. -/
def memSetF (mem : List (String × MemEntry)) (k v : String) (now : Nat) :
    List (String × MemEntry) :=
  ((k, ⟨v, now⟩) :: mem.filter (fun p => !(decide (p.1 = k)))).take memMax

def rdsFind (rds : List (String × String × Nat × Nat)) (k : String) :
    Option (String × String × Nat × Nat) :=
  rds.find? (fun q => decide (q.1 = k))

/-- `await redis.get(k)`: present until `ttl` seconds have elapsed. -/
def redisGetF (rds : List (String × String × Nat × Nat)) (now : Nat) (k : String) :
    Option String :=
  match rdsFind rds k with
  | some q => if now - q.2.2.1 < q.2.2.2 * 1000 then some q.2.1 else none
  | none => none

/-- `await redis.set(k, v, 'EX', ttl)`. -/
def redisSetF (rds : List (String × String × Nat × Nat)) (k v : String) (ttl now : Nat) :
    List (String × String × Nat × Nat) :=
  (k, v, now, ttl) :: rds.filter (fun q => !(decide (q.1 = k)))

/-! ### Observable events of a handler run -/

inductive Ev where
  | respond (status : Nat) (body : String) (gzipped : Bool)
  | delegated (who : String)
  | observe (handler : String) (code : Nat)
  | memGet (key : String)
  | redisGet (key : String)
  | memSet (key : String)
  | redisSet (key : String)
  | renderCall (url : String)
  | fetchCall (url : String)
  deriving Repr, DecidableEq

/-- `memCache.get(key) || await redis.get(key)`, with the tiers actually
consulted recorded as events (`||` short-circuits, so the remote tier is
only queried when the local result is falsy). -/
def tierGet (st : St) (now : Nat) (k : String) : Option String × List Ev :=
  let m := memGet st.mem now k
  if jsTruthy m then (m, [Ev.memGet k])
  else (jsOr m (redisGetF st.rds now k), [Ev.memGet k, Ev.redisGet k])

/-- `memCache.set(key, v); await redis.set(key, v, 'EX', ttl)`. -/
def tierSet (st : St) (k v : String) (ttl now : Nat) : St :=
  { mem := memSetF st.mem k v now, rds := redisSetF st.rds k v ttl now }

/-! ### External collaborators and connections -/

/-- What `serve(req, res, err => …)` did: serve-static either fully handles
the request itself (never invoking the callback) or reports an error whose
optional `statusCode`/`stack` feed the dispatcher's error response. -/
inductive StaticOutcome where
  | served
  | failed (code : Option Nat) (stack : Option String)

structure FetchResp where
  contentType : Option String
  body : Bytes

structure Collab where
  /-- `puppeteerCluster.execute(url)` — may reject. -/
  render : String → Except String String
  /-- `fetch(target, …)` plus `rsp.arrayBuffer()` — may reject. -/
  fetchPage : String → Except String FetchResp
  /-- `new TextDecoder(label)`; `none` = the constructor threw. -/
  mkDecoder : String → Option (Bytes → String)
  /-- `zlib.gzip` (the produced compressed bytes, as an opaque string). -/
  gzipFn : String → String
  /-- index.js tunnel branch: `res.stream.responded ? res.stream.state : —`. -/
  tunnelResponded : Option Nat
  staticOut : StaticOutcome
  /-- `client.register.metrics()`. -/
  metricsBody : String

def staticServed (o : Collab) : Bool :=
  match o.staticOut with
  | .served => true
  | _ => false

/-- index.js connection state consulted by `send`:
`res.stream.session.socket.encrypted` and
`socket._httpMessage.headers['accept-encoding']`. -/
structure Http2Conn where
  encrypted : Bool
  acceptEnc : Option String

/-- part_000 connection state consulted by `send`: `res.socket.serverResponse`
(present or not) and its `getHeader('accept-encoding')` result. -/
structure NodeConn where
  srvResp : Option (Option String)

def gzTok : List Char := "gzip".toList

/-- index.js: `const accept = socket.encrypted ? headers['accept-encoding'] : '';
if (accept && accept.includes('gzip')) …`. -/
def gzDecIndex (c : Http2Conn) : Bool :=
  let accept := if c.encrypted then c.acceptEnc else some ""
  jsTruthy accept && containsSub (accept.getD "").toList gzTok

/-- part_000: `const accepts = res.socket.serverResponse
? res.socket.serverResponse.getHeader('accept-encoding') || '' : '';
if (accepts.includes('gzip')) …`. -/
def gzDecServer (c : NodeConn) : Bool :=
  let accepts :=
    match c.srvResp with
    | some h => h.getD ""
    | none => ""
  containsSub accepts.toList gzTok

/-- The `send` helper: the finalized 200 response, gzip-compressing the body
when the negotiated decision is positive. -/
def sendEv (o : Collab) (gz : Bool) (data : String) : Ev :=
  if gz then Ev.respond 200 (o.gzipFn data) true else Ev.respond 200 data false

/-! ### The dispatcher branches -/

structure Req where
  url : String
  /-- `bare.shouldRoute(req)`. -/
  bare : Bool

/-- Result of one handler run: events in order, final cache state, and
whether an exception escaped the (inner) handler. -/
structure Out where
  evs : List Ev
  st : St
  threw : Bool
  deriving Repr, DecidableEq

/-- The `/puppeteer?url=…` branch, common to both variants (the gzip decision
of the variant's `send` is passed in). -/
def puppBranch (o : Collab) (gz : Bool) (url : String) (st : St) (now : Nat) : Out :=
  match getParam url "url" with
  | none => ⟨[Ev.respond 400 "Missing url" false, Ev.observe "puppeteer" 400], st, false⟩
  | some t =>
    if t = "" then
      ⟨[Ev.respond 400 "Missing url" false, Ev.observe "puppeteer" 400], st, false⟩
    else
      let key := "pp:" ++ t
      let g := tierGet st now key
      if jsTruthy g.1 then
        ⟨g.2 ++ [sendEv o gz (g.1.getD ""), Ev.observe "puppeteer" 200], st, false⟩
      else
        match o.render t with
        | .error _ => ⟨g.2 ++ [Ev.renderCall t], st, true⟩
        | .ok html =>
          ⟨g.2 ++ [Ev.renderCall t, Ev.memSet key, Ev.redisSet key,
             sendEv o gz html, Ev.observe "puppeteer" 200],
           tierSet st key html 30 now, false⟩

/-- The `/proxy/…` branch, common to both variants (the derived target URL
is passed in, since the two variants derive it differently). -/
def decodeBranch (o : Collab) (gz : Bool) (target : String) (st : St) (now : Nat) : Out :=
  let key := "px:" ++ target
  let g := tierGet st now key
  if jsTruthy g.1 then
    ⟨g.2 ++ [sendEv o gz (g.1.getD ""), Ev.observe "decode" 200], st, false⟩
  else
    match o.fetchPage target with
    | .error _ => ⟨g.2 ++ [Ev.fetchCall target], st, true⟩
    | .ok rsp =>
      match decodeText o.mkDecoder (extractCharset rsp.contentType) rsp.body with
      | none => ⟨g.2 ++ [Ev.fetchCall target], st, true⟩
      | some raw =>
        let text := normalizeMeta raw
        ⟨g.2 ++ [Ev.fetchCall target, Ev.memSet key, Ev.redisSet key,
           sendEv o gz text, Ev.observe "decode" 200],
         tierSet st key text 60 now, false⟩

/-- The static-file fallthrough: on success serve-static finalizes the
response itself and the callback — hence the observation — never runs. -/
def staticBranch (o : Collab) (st : St) : Out :=
  match o.staticOut with
  | .served => ⟨[Ev.delegated "static"], st, false⟩
  | .failed code stack =>
    ⟨[Ev.respond (code.getD 404) (stack.getD "Not Found") false,
       Ev.observe "static" (code.getD 404)], st, false⟩

/-- index.js: `'https://' + url.replace(/^\/proxy\//, '')` (anchored regex:
strips one leading `/proxy/` when present). -/
def stripProxyRe (u : String) : String :=
  if strStarts "/proxy/" u then strDrop u 7 else u

def targetIndex (u : String) : String := "https://" ++ stripProxyRe u

/-- part_000: `'https://' + url.slice(7)`. -/
def targetServer (u : String) : String := "https://" ++ strDrop u 7

/-- index.js handler classification (no metrics class: `/metrics` is handled
by a separate `'request'` listener). -/
def classifyIndex (r : Req) : String :=
  if strStarts "/puppeteer?" r.url then "puppeteer"
  else if strStarts "/proxy/" r.url then "decode"
  else if r.bare then "bare"
  else "static"

/-- part_000 handler classification. -/
def classifyServer (r : Req) : String :=
  if strStarts "/puppeteer?" r.url then "puppeteer"
  else if strStarts "/proxy/" r.url then "decode"
  else if r.bare then "bare"
  else if decide (r.url = "/metrics") then "metrics"
  else "static"

/-- The body of index.js's request handler inside its `try`. -/
def runIndexInner (o : Collab) (c : Http2Conn) (r : Req) (st : St) (now : Nat) : Out :=
  if strStarts "/puppeteer?" r.url then puppBranch o (gzDecIndex c) r.url st now
  else if strStarts "/proxy/" r.url then
    decodeBranch o (gzDecIndex c) (targetIndex r.url) st now
  else if r.bare then
    ⟨[Ev.delegated "bare", Ev.observe "bare" (o.tunnelResponded.getD 200)], st, false⟩
  else staticBranch o st

/-- index.js request handler: the `try`/`catch` wrapping — an escaping
exception becomes a 500 response plus a 500 observation. -/
def runIndex (o : Collab) (c : Http2Conn) (r : Req) (st : St) (now : Nat) : Out :=
  let inner := runIndexInner o c r st now
  if inner.threw then
    ⟨inner.evs ++ [Ev.respond 500 "Internal Error" false,
       Ev.observe (classifyIndex r) 500], inner.st, false⟩
  else inner

/-- part_000 `createBareHandler`: same pipelines plus a metrics branch, but
with no `try`/`catch` — a rejected backend call escapes the handler. -/
def runServer (o : Collab) (c : NodeConn) (r : Req) (st : St) (now : Nat) : Out :=
  let h := classifyServer r
  if decide (h = "metrics") then
    ⟨[Ev.respond 200 o.metricsBody false, Ev.observe "metrics" 200], st, false⟩
  else if decide (h = "puppeteer") then puppBranch o (gzDecServer c) r.url st now
  else if decide (h = "decode") then
    decodeBranch o (gzDecServer c) (targetServer r.url) st now
  else if decide (h = "bare") then
    ⟨[Ev.delegated "bare", Ev.observe "bare" 200], st, false⟩
  else staticBranch o st

/-- index.js's second `'request'` listener, registered after the main
handler: on `/metrics` it finalizes the response itself with the metrics
exposition body; on any other URL it does nothing.  It never records a
metric observation. -/
def metricsListener (o : Collab) (r : Req) : List Ev :=
  if decide (r.url = "/metrics") then [Ev.respond 200 o.metricsBody false] else []

/-- The complete index.js request path: both `'request'` listeners run, in
registration order, against the same response.  On `/metrics` — a URL that
starts with neither `/puppeteer?` nor `/proxy/` — the dispatcher's branch
runs its synchronous prefix first (delegating to the tunnel adapter and
observing when `bare.shouldRoute` owns the request, otherwise handing the
response to serve-static), and the metrics listener then ends the same
response itself.  Serve-static's asynchronous callback fires only after
that end: its `writeHead` on the committed response throws inside the
callback, so the static pipeline completes no response and records no
observation on this path.  On every other URL the metrics listener
contributes nothing and the run is the dispatcher listener's alone. -/
def runIndexFull (o : Collab) (c : Http2Conn) (r : Req) (st : St) (now : Nat) : Out :=
  if decide (r.url = "/metrics") then
    if r.bare then
      ⟨[Ev.delegated "bare", Ev.observe "bare" (o.tunnelResponded.getD 200)] ++
        metricsListener o r, st, false⟩
    else
      ⟨[Ev.delegated "static"] ++ metricsListener o r, st, false⟩
  else
    ⟨(runIndex o c r st now).evs ++ metricsListener o r,
     (runIndex o c r st now).st, (runIndex o c r st now).threw⟩

/-! ### Event counting -/

def isRespEv : Ev → Bool
  | .respond _ _ _ => true
  | .delegated _ => true
  | _ => false

def isObsEv : Ev → Bool
  | .observe _ _ => true
  | _ => false

def isRenderEv : Ev → Bool
  | .renderCall _ => true
  | _ => false

def isFetchEv : Ev → Bool
  | .fetchCall _ => true
  | _ => false

def isCacheEv : Ev → Bool
  | .memGet _ => true
  | .redisGet _ => true
  | .memSet _ => true
  | .redisSet _ => true
  | _ => false

def countResp (evs : List Ev) : Nat := (evs.filter isRespEv).length
def countObs (evs : List Ev) : Nat := (evs.filter isObsEv).length
def countRender (evs : List Ev) : Nat := (evs.filter isRenderEv).length
def countFetch (evs : List Ev) : Nat := (evs.filter isFetchEv).length
def countCache (evs : List Ev) : Nat := (evs.filter isCacheEv).length

/-- The bodies of the responses in a run, in order. -/
def respBodies (evs : List Ev) : List String :=
  evs.filterMap (fun e => match e with | .respond _ b _ => some b | _ => none)

/-- The empty cache state. -/
def st0 : St := ⟨[], []⟩

/-- A collaborator assignment whose backends always fail and whose static
collaborator serves successfully. -/
def trivCollab : Collab where
  render := fun _ => .error "down"
  fetchPage := fun _ => .error "down"
  mkDecoder := fun _ => none
  gzipFn := id
  tunnelResponded := none
  staticOut := .served
  metricsBody := "kimutichan_http_requests_total 0"

/-- A collaborator assignment whose render backend yields a fixed non-empty
page and whose fetch yields a fixed body decoded by a UTF-8 decoder. -/
def okCollab : Collab :=
  { trivCollab with
    render := fun _ => .ok "<p>Hi</p>"
    fetchPage := fun _ => .ok ⟨some "text/html", [72]⟩
    mkDecoder := fun s => if s = "utf-8" then some (fun _ => "<p>H</p>") else none }

/-- A collaborator assignment whose render backend yields the empty page. -/
def emptyRenderCollab : Collab := { trivCollab with render := fun _ => .ok "" }

/-! ### Basic cache lemmas -/

theorem memFind_set (mem : List (String × MemEntry)) (k v : String) (now : Nat) :
    memFind (memSetF mem k v now) k = some (k, ⟨v, now⟩) := by
  unfold memFind memSetF memMax
  rw [show (500 : Nat) = 499 + 1 from rfl, List.take_succ_cons]
  exact List.find?_cons_of_pos _ (by simp)

theorem rdsFind_set (rds : List (String × String × Nat × Nat)) (k v : String)
    (ttl now : Nat) : rdsFind (redisSetF rds k v ttl now) k = some (k, v, now, ttl) := by
  unfold rdsFind redisSetF
  exact List.find?_cons_of_pos _ (by simp)

/-- A freshly stored value is returned by the local tier at any time within
the local TTL window. -/
theorem memGet_after_set (st : St) (k v : String) (ttl now now2 : Nat)
    (h2 : now2 - now ≤ memTtlMs) :
    memGet (tierSet st k v ttl now).mem now2 k = some v := by
  show memGet (memSetF st.mem k v now) now2 k = some v
  unfold memGet
  rw [memFind_set]
  simp [h2]

theorem tierGet_after_set (st : St) (k v : String) (ttl now now2 : Nat)
    (h2 : now2 - now ≤ memTtlMs) (hvne : v ≠ "") :
    tierGet (tierSet st k v ttl now) now2 k = (some v, [Ev.memGet k]) := by
  have hmg := memGet_after_set st k v ttl now now2 h2
  simp [tierGet, hmg, jsTruthy, hvne]

/-- C8. For every key, value and (positive) TTL, `set` through both tiers
followed immediately by the two-tier `get` returns the stored value. -/
theorem cache_roundtrip (st : St) (k v : String) (ttl now : Nat) (h : 1 ≤ ttl) :
    (tierGet (tierSet st k v ttl now) now k).1 = some v := by
  have hm : memGet (tierSet st k v ttl now).mem now k = some v :=
    memGet_after_set st k v ttl now now (by simp)
  by_cases hv : v = ""
  · subst hv
    have hr : redisGetF (tierSet st k "" ttl now).rds now k = some "" := by
      show redisGetF (redisSetF st.rds k "" ttl now) now k = some ""
      unfold redisGetF
      rw [rdsFind_set]
      have hpos : 0 < ttl * 1000 := Nat.mul_pos h (by norm_num)
      simp [hpos]
    simp [tierGet, hm, jsTruthy, jsOr, hr]
  · simp [tierGet, hm, jsTruthy, hv]

/-- Witness for C8 at a concrete instance (the stored value is even the
empty string, exercising the remote-tier leg of the `||`). -/
theorem cache_roundtrip_w :
    1 ≤ 30 ∧ (tierGet (tierSet st0 "pp:x" "" 30 5) 5 "pp:x").1 = some "" :=
  ⟨by decide, cache_roundtrip st0 "pp:x" "" 30 5 (by decide)⟩

/-- C9. For every request path starting with `/proxy/`, the multi-process
entry point (regex strip) and the single-process entry point (`slice(7)`)
derive the same forced-HTTPS target URL. -/
theorem proxy_target_agreement (u : String) (h : strStarts "/proxy/" u = true) :
    targetIndex u = targetServer u := by
  unfold targetIndex targetServer stripProxyRe
  rw [if_pos h]

/-- Witness for C9 at a concrete path. -/
theorem proxy_target_agreement_w :
    strStarts "/proxy/" "/proxy/example.com/page" = true ∧
    targetIndex "/proxy/example.com/page" = targetServer "/proxy/example.com/page" :=
  ⟨by decide, proxy_target_agreement _ (by decide)⟩

/-! ### C7: the meta-charset rewrite -/

/-- C7 counterexample: `<meta charset=utf-8>` already declares UTF-8, yet
the rewrite changes it (to the quoted canonical form), so the rewrite is
not the identity on every document that already declares UTF-8. -/
theorem unquoted_utf8_meta_rewritten :
    containsSub ("<meta charset=utf-8>").toList ("charset=utf-8").toList = true ∧
    normalizeMeta "<meta charset=utf-8>" = "<meta charset=\"utf-8\">" ∧
    normalizeMeta "<meta charset=utf-8>" ≠ "<meta charset=utf-8>" :=
  ⟨by decide, by decide, by decide⟩

/-- C7 amended: the rewrite is the identity on any document with no match of
the meta-charset pattern at all, and on any document whose leftmost match is
already exactly the canonical `<meta charset="utf-8">` form. -/
theorem normalize_meta_identity (s : String) :
    (findMeta s.toList = none → normalizeMeta s = s) ∧
    (∀ i len, findMeta s.toList = some (i, len) →
      (s.toList.drop i).take len = canonMeta → normalizeMeta s = s) := by
  constructor
  · intro h
    unfold normalizeMeta normMetaL
    rw [h]
    rfl
  · intro i len h hseg
    unfold normalizeMeta normMetaL
    rw [h, ← hseg]
    show String.mk (s.toList.take i ++ (s.toList.drop i).take len ++
      s.toList.drop (i + len)) = s
    have hdd : s.toList.drop (i + len) = (s.toList.drop i).drop len := by
      rw [List.drop_drop, Nat.add_comm]
    rw [hdd, List.append_assoc, List.take_append_drop, List.take_append_drop]
    rfl

/-- Witness for C7 amended: a document with no meta tag and a document whose
declaration is already canonical are both left unchanged. -/
theorem normalize_meta_identity_w :
    (findMeta ("<p>hi</p>").toList = none ∧
      normalizeMeta "<p>hi</p>" = "<p>hi</p>") ∧
    (findMeta ("<meta charset=\"utf-8\"><p>x</p>").toList = some (0, 22) ∧
      normalizeMeta "<meta charset=\"utf-8\"><p>x</p>" = "<meta charset=\"utf-8\"><p>x</p>") :=
  ⟨⟨by decide, (normalize_meta_identity _).1 (by decide)⟩,
   ⟨by decide, (normalize_meta_identity _).2 0 22 (by decide) (by decide)⟩⟩

/-! ### C5: gzip negotiation -/

/-- C5 counterexample: a client whose `Accept-Encoding` contains `gzip` but
whose connection is not flagged `encrypted` gets an uncompressed response —
the decision is not based solely on the header. -/
theorem gzip_ignored_on_unencrypted_socket :
    containsSub ("x, gzip").toList gzTok = true ∧
    gzDecIndex ⟨false, some "x, gzip"⟩ = false ∧
    sendEv trivCollab (gzDecIndex ⟨false, some "x, gzip"⟩) "body" =
      Ev.respond 200 "body" false :=
  ⟨by decide, by decide, by decide⟩

/-- C5 amended: compression is chosen iff the connection is encrypted and the
accept-encoding string read from the socket is truthy and contains `gzip`
(index.js), resp. iff the socket exposes a `serverResponse` whose retrieved
header value contains `gzip` (part_000); when compression is chosen the
gzipped body decompresses back to the uncompressed body, and otherwise the
body is sent verbatim. -/
theorem gzip_negotiation (o : Collab) (data : String) (ci : Http2Conn) (cs : NodeConn)
    (gunzipFn : String → String) (hinv : ∀ x, gunzipFn (o.gzipFn x) = x) :
    gzDecIndex ci = (ci.encrypted && (jsTruthy ci.acceptEnc &&
        containsSub (ci.acceptEnc.getD "").toList gzTok)) ∧
    gzDecServer cs = (!(decide (cs.srvResp = none)) &&
        containsSub ((cs.srvResp.getD (some "")).getD "").toList gzTok) ∧
    (gzDecIndex ci = true →
      sendEv o (gzDecIndex ci) data = Ev.respond 200 (o.gzipFn data) true ∧
      gunzipFn (o.gzipFn data) = data) ∧
    (gzDecIndex ci = false →
      sendEv o (gzDecIndex ci) data = Ev.respond 200 data false) := by
  refine ⟨?_, ?_, ?_, ?_⟩
  · cases ci with
    | mk e a => cases e <;> simp [gzDecIndex, jsTruthy]
  · cases cs with
    | mk sr =>
      cases sr with
      | none => decide
      | some h => simp [gzDecServer]
  · intro hgz
    rw [hgz]
    exact ⟨by simp [sendEv], hinv data⟩
  · intro hgz
    rw [hgz]
    simp [sendEv]

/-- Witness for C5 amended at a concrete encrypted connection advertising
gzip, with an invertible compressor. -/
theorem gzip_negotiation_w :
    gzDecIndex ⟨true, some "gzip"⟩ = true ∧
    (sendEv trivCollab (gzDecIndex ⟨true, some "gzip"⟩) "body" =
       Ev.respond 200 (trivCollab.gzipFn "body") true ∧
     id (trivCollab.gzipFn "body") = "body") :=
  ⟨by decide,
   (gzip_negotiation trivCollab "body" ⟨true, some "gzip"⟩ ⟨none⟩ id
      (fun _ => rfl)).2.2.1 (by decide)⟩

/-! ### C6: charset declaration handling and decode fallback -/

/-- C6. With the upstream `Content-Type`'s `charset=` declaration extracted
(or `utf-8` assumed when absent): a constructible decoder is used as-is, a
failing decoder construction falls back to the UTF-8 decoder, and no decode
failure ever escapes (given that the UTF-8 decoder itself constructs, as a
real `TextDecoder` always does). -/
theorem charset_decode_fallback
    (mk : String → Option (Bytes → String)) (u8 : Bytes → String)
    (ct : Option String) (buf : Bytes)
    (h8 : mk "utf-8" = some u8) :
    (∀ dec, mk (extractCharset ct) = some dec →
      decodeText mk (extractCharset ct) buf = some (dec buf)) ∧
    (mk (extractCharset ct) = none →
      decodeText mk (extractCharset ct) buf = some (u8 buf)) ∧
    (findCharsetL (ct.getD "").toList = none → extractCharset ct = "utf-8") ∧
    decodeText mk (extractCharset ct) buf ≠ none := by
  refine ⟨?_, ?_, ?_, ?_⟩
  · intro dec hd
    simp [decodeText, hd]
  · intro hn
    simp [decodeText, hn, h8]
  · intro hn
    unfold extractCharset
    rw [hn]
  · cases hmk : mk (extractCharset ct) with
    | some dec => simp [decodeText, hmk]
    | none => simp [decodeText, hmk, h8]

/-- Witness for C6: a declared `charset=sjis` whose decoder construction
fails falls back to the UTF-8 decoder without erroring. -/
theorem charset_decode_fallback_w :
    extractCharset (some "text/html; charset=sjis") = "sjis" ∧
    decodeText (fun s => if s = "utf-8" then some (fun _ => "U") else none)
      (extractCharset (some "text/html; charset=sjis")) [1, 2] = some "U" :=
  ⟨by decide,
   (charset_decode_fallback (fun s => if s = "utf-8" then some (fun _ => "U") else none)
      (fun _ => "U") (some "text/html; charset=sjis") [1, 2] rfl).2.1 rfl⟩

/-! ### C1: missing/empty `url` parameter on the render pipeline -/

/-- The `/puppeteer?` branch with a falsy `url` parameter responds 400 and
observes 400, leaving the cache untouched — identically for any gzip
decision, hence for both entry-point variants. -/
theorem puppBranch_missing_url (o : Collab) (gz : Bool) (url : String) (st : St)
    (now : Nat) (hm : getParam url "url" = none ∨ getParam url "url" = some "") :
    puppBranch o gz url st now =
      ⟨[Ev.respond 400 "Missing url" false, Ev.observe "puppeteer" 400], st, false⟩ := by
  rcases hm with h | h <;> simp [puppBranch, h]

/-- C1. A render-pipeline request whose `url` query parameter is missing or
empty yields exactly a 400 response and a 400 observation in both entry
points; the full event list shows that neither cache tier nor the render
backend is touched and the cache state is returned unchanged. -/
theorem missing_url_fails_fast (o : Collab) (ci : Http2Conn) (cs : NodeConn)
    (r : Req) (st : St) (now : Nat)
    (hp : strStarts "/puppeteer?" r.url = true)
    (hm : getParam r.url "url" = none ∨ getParam r.url "url" = some "") :
    runIndex o ci r st now =
      ⟨[Ev.respond 400 "Missing url" false, Ev.observe "puppeteer" 400], st, false⟩ ∧
    runServer o cs r st now =
      ⟨[Ev.respond 400 "Missing url" false, Ev.observe "puppeteer" 400], st, false⟩ := by
  have hko : ∀ gz, puppBranch o gz r.url st now =
      ⟨[Ev.respond 400 "Missing url" false, Ev.observe "puppeteer" 400], st, false⟩ :=
    fun gz => puppBranch_missing_url o gz r.url st now hm
  constructor
  · simp [runIndex, runIndexInner, hp, hko]
  · simp [runServer, classifyServer, hp, hko]

/-- Witness for C1 at a concrete request with no `url` parameter. -/
theorem missing_url_fails_fast_w :
    strStarts "/puppeteer?" "/puppeteer?x=1" = true ∧
    runIndex trivCollab ⟨true, none⟩ ⟨"/puppeteer?x=1", false⟩ st0 0 =
      ⟨[Ev.respond 400 "Missing url" false, Ev.observe "puppeteer" 400], st0, false⟩ ∧
    runServer trivCollab ⟨none⟩ ⟨"/puppeteer?x=1", false⟩ st0 0 =
      ⟨[Ev.respond 400 "Missing url" false, Ev.observe "puppeteer" 400], st0, false⟩ :=
  ⟨by decide,
   (missing_url_fails_fast trivCollab ⟨true, none⟩ ⟨none⟩ ⟨"/puppeteer?x=1", false⟩ st0 0
      (by decide) (Or.inl (by decide))).1,
   (missing_url_fails_fast trivCollab ⟨true, none⟩ ⟨none⟩ ⟨"/puppeteer?x=1", false⟩ st0 0
      (by decide) (Or.inl (by decide))).2⟩

/-! ### C10: an empty cached body is treated as a miss -/

/-- If both cache tiers hold at most the empty string for a key, the
two-tier lookup result is falsy, so the `!value` hit test fails. -/
theorem tierGet_falsy (st : St) (now : Nat) (k : String)
    (hm : ∀ p, memFind st.mem k = some p → p.2.value = "")
    (hr : ∀ q, rdsFind st.rds k = some q → q.2.1 = "") :
    jsTruthy (tierGet st now k).1 = false := by
  have hmg : jsTruthy (memGet st.mem now k) = false := by
    cases hf : memFind st.mem k with
    | none =>
      have hq : memGet st.mem now k = none := by
        unfold memGet
        rw [hf]
      rw [hq]
      rfl
    | some p =>
      have hv := hm p hf
      have hq : memGet st.mem now k =
          if now - p.2.start ≤ memTtlMs then some p.2.value else none := by
        unfold memGet
        rw [hf]
      rw [hq]
      by_cases hif : now - p.2.start ≤ memTtlMs <;> simp [hif, jsTruthy, hv]
  have hrg : jsTruthy (redisGetF st.rds now k) = false := by
    cases hf : rdsFind st.rds k with
    | none =>
      have hq : redisGetF st.rds now k = none := by
        unfold redisGetF
        rw [hf]
      rw [hq]
      rfl
    | some q =>
      have hv := hr q hf
      have hq : redisGetF st.rds now k =
          if now - q.2.2.1 < q.2.2.2 * 1000 then some q.2.1 else none := by
        unfold redisGetF
        rw [hf]
      rw [hq]
      by_cases hif : now - q.2.2.1 < q.2.2.2 * 1000 <;> simp [hif, jsTruthy, hv]
  simp [tierGet, hmg, jsOr, hrg]

/-- C10. When both tiers hold (at most) the empty string for a render key
(resp. a decode-proxy key), the truthiness hit test treats the lookup as a
miss and the render backend (resp. the outbound fetch) is invoked again, in
both entry-point variants. -/
theorem empty_cached_value_treated_as_miss :
    (∀ (o : Collab) (ci : Http2Conn) (cs : NodeConn) (r : Req) (st : St) (now : Nat)
        (t : String),
      strStarts "/puppeteer?" r.url = true →
      getParam r.url "url" = some t → t ≠ "" →
      (∀ p, memFind st.mem ("pp:" ++ t) = some p → p.2.value = "") →
      (∀ q, rdsFind st.rds ("pp:" ++ t) = some q → q.2.1 = "") →
      Ev.renderCall t ∈ (runIndex o ci r st now).evs ∧
      Ev.renderCall t ∈ (runServer o cs r st now).evs) ∧
    (∀ (o : Collab) (ci : Http2Conn) (cs : NodeConn) (r : Req) (st : St) (now : Nat),
      strStarts "/puppeteer?" r.url = false →
      strStarts "/proxy/" r.url = true →
      (∀ p, memFind st.mem ("px:" ++ targetIndex r.url) = some p → p.2.value = "") →
      (∀ q, rdsFind st.rds ("px:" ++ targetIndex r.url) = some q → q.2.1 = "") →
      Ev.fetchCall (targetIndex r.url) ∈ (runIndex o ci r st now).evs ∧
      Ev.fetchCall (targetServer r.url) ∈ (runServer o cs r st now).evs) := by
  constructor
  · intro o ci cs r st now t hp ht htne hm hr
    have hfalsy := tierGet_falsy st now ("pp:" ++ t) hm hr
    have hbr : ∀ gz, Ev.renderCall t ∈ (puppBranch o gz r.url st now).evs := by
      intro gz
      unfold puppBranch
      simp only [ht]
      rw [if_neg htne]
      rw [if_neg (by rw [hfalsy]; exact Bool.false_ne_true)]
      cases hre : o.render t <;> simp
    have hin : runIndexInner o ci r st now =
        puppBranch o (gzDecIndex ci) r.url st now := by
      simp [runIndexInner, hp]
    constructor
    · simp only [runIndex, hin]
      split
      · exact List.mem_append_left _ (hbr _)
      · exact hbr _
    · have hsv : runServer o cs r st now =
          puppBranch o (gzDecServer cs) r.url st now := by
        simp [runServer, classifyServer, hp]
      rw [hsv]
      exact hbr _
  · intro o ci cs r st now hnp hp hm hr
    have hfalsy := tierGet_falsy st now ("px:" ++ targetIndex r.url) hm hr
    have hbr : ∀ gz, Ev.fetchCall (targetIndex r.url) ∈
        (decodeBranch o gz (targetIndex r.url) st now).evs := by
      intro gz
      simp only [decodeBranch]
      rw [if_neg (by rw [hfalsy]; exact Bool.false_ne_true)]
      cases hfe : o.fetchPage (targetIndex r.url) with
      | error e => simp
      | ok rsp =>
        cases hde : decodeText o.mkDecoder (extractCharset rsp.contentType) rsp.body <;>
          simp [hde]
    have hin : runIndexInner o ci r st now =
        decodeBranch o (gzDecIndex ci) (targetIndex r.url) st now := by
      simp [runIndexInner, hnp, hp]
    constructor
    · simp only [runIndex, hin]
      split
      · exact List.mem_append_left _ (hbr _)
      · exact hbr _
    · have htv : targetServer r.url = targetIndex r.url := by
        unfold targetServer targetIndex stripProxyRe
        rw [if_pos hp]
      have hsv : runServer o cs r st now =
          decodeBranch o (gzDecServer cs) (targetServer r.url) st now := by
        simp [runServer, classifyServer, hnp, hp]
      rw [hsv, htv]
      exact hbr _

/-- Witness for C10: an empty body cached in both tiers triggers a fresh
backend invocation (render) resp. a fresh outbound fetch (decode proxy) on
the next identical request, in both variants. -/
theorem empty_cached_value_treated_as_miss_w :
    (Ev.renderCall "x" ∈ (runIndex trivCollab ⟨true, none⟩ ⟨"/puppeteer?url=x", false⟩
        ⟨[("pp:x", ⟨"", 0⟩)], [("pp:x", "", 0, 30)]⟩ 5).evs ∧
     Ev.renderCall "x" ∈ (runServer trivCollab ⟨none⟩ ⟨"/puppeteer?url=x", false⟩
        ⟨[("pp:x", ⟨"", 0⟩)], [("pp:x", "", 0, 30)]⟩ 5).evs) ∧
    (Ev.fetchCall (targetIndex "/proxy/ex.com") ∈
        (runIndex trivCollab ⟨true, none⟩ ⟨"/proxy/ex.com", false⟩
          ⟨[("px:https://ex.com", ⟨"", 0⟩)], [("px:https://ex.com", "", 0, 60)]⟩ 5).evs ∧
     Ev.fetchCall (targetServer "/proxy/ex.com") ∈
        (runServer trivCollab ⟨none⟩ ⟨"/proxy/ex.com", false⟩
          ⟨[("px:https://ex.com", ⟨"", 0⟩)], [("px:https://ex.com", "", 0, 60)]⟩ 5).evs) :=
  ⟨empty_cached_value_treated_as_miss.1 trivCollab ⟨true, none⟩ ⟨none⟩
    ⟨"/puppeteer?url=x", false⟩ ⟨[("pp:x", ⟨"", 0⟩)], [("pp:x", "", 0, 30)]⟩ 5 "x"
    (by decide) (by decide) (by decide)
    (fun p h => by
      have h' : some ("pp:x", MemEntry.mk "" 0) = some p := h
      injection h' with h2
      rw [← h2])
    (fun q h => by
      have h' : some ("pp:x", "", 0, 30) = some q := h
      injection h' with h2
      rw [← h2]),
   empty_cached_value_treated_as_miss.2 trivCollab ⟨true, none⟩ ⟨none⟩
    ⟨"/proxy/ex.com", false⟩
    ⟨[("px:https://ex.com", ⟨"", 0⟩)], [("px:https://ex.com", "", 0, 60)]⟩ 5
    (by decide) (by decide)
    (fun p h => by
      have h' : some ("px:https://ex.com", MemEntry.mk "" 0) = some p := h
      injection h' with h2
      rw [← h2])
    (fun q h => by
      have h' : some ("px:https://ex.com", "", 0, 60) = some q := h
      injection h' with h2
      rw [← h2])⟩

/-! ### Counting lemmas for the dispatcher -/

theorem countResp_append (a b : List Ev) :
    countResp (a ++ b) = countResp a + countResp b := by
  simp [countResp, List.filter_append]

theorem countObs_append (a b : List Ev) :
    countObs (a ++ b) = countObs a + countObs b := by
  simp [countObs, List.filter_append]

theorem countRender_append (a b : List Ev) :
    countRender (a ++ b) = countRender a + countRender b := by
  simp [countRender, List.filter_append]

theorem countFetch_append (a b : List Ev) :
    countFetch (a ++ b) = countFetch a + countFetch b := by
  simp [countFetch, List.filter_append]

theorem tierGet_evs (st : St) (now : Nat) (k : String) :
    (tierGet st now k).2 = [Ev.memGet k] ∨
    (tierGet st now k).2 = [Ev.memGet k, Ev.redisGet k] := by
  by_cases h : jsTruthy (memGet st.mem now k) = true <;> simp [tierGet, h]

theorem isRespEv_send (o : Collab) (gz : Bool) (d : String) :
    isRespEv (sendEv o gz d) = true := by
  unfold sendEv
  split <;> rfl

theorem isObsEv_send (o : Collab) (gz : Bool) (d : String) :
    isObsEv (sendEv o gz d) = false := by
  unfold sendEv
  split <;> rfl

theorem isRenderEv_send (o : Collab) (gz : Bool) (d : String) :
    isRenderEv (sendEv o gz d) = false := by
  unfold sendEv
  split <;> rfl

theorem isFetchEv_send (o : Collab) (gz : Bool) (d : String) :
    isFetchEv (sendEv o gz d) = false := by
  unfold sendEv
  split <;> rfl

theorem countResp_tier_add (st : St) (now : Nat) (k : String) (l : List Ev) :
    countResp ((tierGet st now k).2 ++ l) = countResp l := by
  rcases tierGet_evs st now k with h | h <;> rw [h] <;>
    simp [countResp, List.filter_append, List.filter, isRespEv]

theorem countObs_tier_add (st : St) (now : Nat) (k : String) (l : List Ev) :
    countObs ((tierGet st now k).2 ++ l) = countObs l := by
  rcases tierGet_evs st now k with h | h <;> rw [h] <;>
    simp [countObs, List.filter_append, List.filter, isObsEv]

theorem countRender_tier_add (st : St) (now : Nat) (k : String) (l : List Ev) :
    countRender ((tierGet st now k).2 ++ l) = countRender l := by
  rcases tierGet_evs st now k with h | h <;> rw [h] <;>
    simp [countRender, List.filter_append, List.filter, isRenderEv]

theorem countFetch_tier_add (st : St) (now : Nat) (k : String) (l : List Ev) :
    countFetch ((tierGet st now k).2 ++ l) = countFetch l := by
  rcases tierGet_evs st now k with h | h <;> rw [h] <;>
    simp [countFetch, List.filter_append, List.filter, isFetchEv]

/-- The `/puppeteer` branch always produces exactly one response and one
observation unless an exception escapes it, in which case it produces
neither. -/
theorem puppBranch_counts (o : Collab) (gz : Bool) (url : String) (st : St) (now : Nat) :
    countResp (puppBranch o gz url st now).evs =
      (if (puppBranch o gz url st now).threw then 0 else 1) ∧
    countObs (puppBranch o gz url st now).evs =
      (if (puppBranch o gz url st now).threw then 0 else 1) := by
  obtain hq | ⟨t, hq⟩ : getParam url "url" = none ∨ ∃ t, getParam url "url" = some t := by
    cases getParam url "url" with
    | none => exact Or.inl rfl
    | some t => exact Or.inr ⟨t, rfl⟩
  · have hb : puppBranch o gz url st now =
        ⟨[Ev.respond 400 "Missing url" false, Ev.observe "puppeteer" 400], st, false⟩ := by
      unfold puppBranch
      rw [hq]
    rw [hb]
    exact ⟨rfl, rfl⟩
  · by_cases ht : t = ""
    · have hb : puppBranch o gz url st now =
          ⟨[Ev.respond 400 "Missing url" false, Ev.observe "puppeteer" 400], st, false⟩ := by
        unfold puppBranch
        simp only [hq]
        rw [if_pos ht]
      rw [hb]
      exact ⟨rfl, rfl⟩
    · by_cases hg1 : jsTruthy (tierGet st now ("pp:" ++ t)).1 = true
      · have hb : puppBranch o gz url st now =
            ⟨(tierGet st now ("pp:" ++ t)).2 ++
              [sendEv o gz ((tierGet st now ("pp:" ++ t)).1.getD ""),
               Ev.observe "puppeteer" 200], st, false⟩ := by
          unfold puppBranch
          simp only [hq]
          rw [if_neg ht, if_pos hg1]
        simp only [hb]
        constructor
        · rw [countResp_tier_add]
          cases gz <;> rfl
        · rw [countObs_tier_add]
          cases gz <;> rfl
      · obtain ⟨e, hre⟩ | ⟨html, hre⟩ :
            (∃ e, o.render t = .error e) ∨ ∃ html, o.render t = .ok html := by
          cases o.render t with
          | error e => exact Or.inl ⟨e, rfl⟩
          | ok h => exact Or.inr ⟨h, rfl⟩
        · have hb : puppBranch o gz url st now =
              ⟨(tierGet st now ("pp:" ++ t)).2 ++ [Ev.renderCall t], st, true⟩ := by
            unfold puppBranch
            simp only [hq]
            rw [if_neg ht, if_neg hg1, hre]
          simp only [hb]
          constructor
          · rw [countResp_tier_add]
            rfl
          · rw [countObs_tier_add]
            rfl
        · have hb : puppBranch o gz url st now =
              ⟨(tierGet st now ("pp:" ++ t)).2 ++
                [Ev.renderCall t, Ev.memSet ("pp:" ++ t), Ev.redisSet ("pp:" ++ t),
                 sendEv o gz html, Ev.observe "puppeteer" 200],
               tierSet st ("pp:" ++ t) html 30 now, false⟩ := by
            unfold puppBranch
            simp only [hq]
            rw [if_neg ht, if_neg hg1, hre]
          simp only [hb]
          constructor
          · rw [countResp_tier_add]
            cases gz <;> rfl
          · rw [countObs_tier_add]
            cases gz <;> rfl

/-- The `/proxy` branch always produces exactly one response and one
observation unless an exception escapes it, in which case it produces
neither. -/
theorem decodeBranch_counts (o : Collab) (gz : Bool) (target : String) (st : St)
    (now : Nat) :
    countResp (decodeBranch o gz target st now).evs =
      (if (decodeBranch o gz target st now).threw then 0 else 1) ∧
    countObs (decodeBranch o gz target st now).evs =
      (if (decodeBranch o gz target st now).threw then 0 else 1) := by
  by_cases hg1 : jsTruthy (tierGet st now ("px:" ++ target)).1 = true
  · have hb : decodeBranch o gz target st now =
        ⟨(tierGet st now ("px:" ++ target)).2 ++
          [sendEv o gz ((tierGet st now ("px:" ++ target)).1.getD ""),
           Ev.observe "decode" 200], st, false⟩ := by
      unfold decodeBranch
      rw [if_pos hg1]
    simp only [hb]
    constructor
    · rw [countResp_tier_add]
      cases gz <;> rfl
    · rw [countObs_tier_add]
      cases gz <;> rfl
  · obtain ⟨e, hfe⟩ | ⟨rsp, hfe⟩ :
        (∃ e, o.fetchPage target = .error e) ∨ ∃ rsp, o.fetchPage target = .ok rsp := by
      cases o.fetchPage target with
      | error e => exact Or.inl ⟨e, rfl⟩
      | ok rsp => exact Or.inr ⟨rsp, rfl⟩
    · have hb : decodeBranch o gz target st now =
          ⟨(tierGet st now ("px:" ++ target)).2 ++ [Ev.fetchCall target], st, true⟩ := by
        unfold decodeBranch
        rw [if_neg hg1, hfe]
      simp only [hb]
      constructor
      · rw [countResp_tier_add]
        rfl
      · rw [countObs_tier_add]
        rfl
    · obtain hde | ⟨raw, hde⟩ :
          decodeText o.mkDecoder (extractCharset rsp.contentType) rsp.body = none ∨
          ∃ raw, decodeText o.mkDecoder (extractCharset rsp.contentType) rsp.body =
            some raw := by
        cases decodeText o.mkDecoder (extractCharset rsp.contentType) rsp.body with
        | none => exact Or.inl rfl
        | some raw => exact Or.inr ⟨raw, rfl⟩
      · have hb : decodeBranch o gz target st now =
            ⟨(tierGet st now ("px:" ++ target)).2 ++ [Ev.fetchCall target], st, true⟩ := by
          unfold decodeBranch
          rw [if_neg hg1]
          simp only [hfe]
          rw [hde]
        simp only [hb]
        constructor
        · rw [countResp_tier_add]
          simp [countResp, List.filter, isRespEv]
        · rw [countObs_tier_add]
          simp [countObs, List.filter, isObsEv]
      · have hb : decodeBranch o gz target st now =
            ⟨(tierGet st now ("px:" ++ target)).2 ++
              [Ev.fetchCall target, Ev.memSet ("px:" ++ target),
               Ev.redisSet ("px:" ++ target), sendEv o gz (normalizeMeta raw),
               Ev.observe "decode" 200],
             tierSet st ("px:" ++ target) (normalizeMeta raw) 60 now, false⟩ := by
          unfold decodeBranch
          rw [if_neg hg1]
          simp only [hfe]
          rw [hde]
        simp only [hb]
        constructor
        · rw [countResp_tier_add]
          cases gz <;> rfl
        · rw [countObs_tier_add]
          cases gz <;> rfl

/-- The static branch: one response always; an observation exactly when the
collaborator reported an error (a successfully served file records none). -/
theorem staticBranch_counts (o : Collab) (st : St) :
    (staticBranch o st).threw = false ∧
    countResp (staticBranch o st).evs = 1 ∧
    countObs (staticBranch o st).evs = (if staticServed o then 0 else 1) := by
  cases hso : o.staticOut with
  | served =>
    simp [staticBranch, staticServed, hso]
    exact ⟨rfl, rfl⟩
  | failed code stack =>
    simp [staticBranch, staticServed, hso, countResp, countObs, List.filter,
      isRespEv, isObsEv]

/-- The index.js `try`/`catch` wrapper turns a one-or-none branch into
exactly one response and one observation. -/
theorem runIndex_counts_of_branch (o : Collab) (ci : Http2Conn) (r : Req) (st : St)
    (now : Nat)
    (hc : countResp (runIndexInner o ci r st now).evs =
        (if (runIndexInner o ci r st now).threw then 0 else 1) ∧
      countObs (runIndexInner o ci r st now).evs =
        (if (runIndexInner o ci r st now).threw then 0 else 1)) :
    countResp (runIndex o ci r st now).evs = 1 ∧
    countObs (runIndex o ci r st now).evs = 1 := by
  obtain ⟨hcr, hco⟩ := hc
  by_cases hth : (runIndexInner o ci r st now).threw = true
  · have h500 : runIndex o ci r st now =
        ⟨(runIndexInner o ci r st now).evs ++ [Ev.respond 500 "Internal Error" false,
           Ev.observe (classifyIndex r) 500], (runIndexInner o ci r st now).st, false⟩ := by
      simp [runIndex, hth]
    constructor
    · simp only [h500]
      rw [countResp_append, hcr, hth]
      rfl
    · simp only [h500]
      rw [countObs_append, hco, hth]
      rfl
  · have hf : (runIndexInner o ci r st now).threw = false := by
      revert hth
      cases (runIndexInner o ci r st now).threw <;> simp
    have heq : runIndex o ci r st now = runIndexInner o ci r st now := by
      simp [runIndex, hf]
    rw [heq, hcr, hco, hf]
    exact ⟨rfl, rfl⟩

/-- C2 counterexample: a static request that serve-static handles
successfully produces a response but records no metric observation at all
(`observe` lives only in the error callback), refuting "exactly one metric
observation per request" — in the full index.js request path (both
listeners) as well as in the single-process variant. -/
theorem static_served_records_no_observation :
    countResp (runIndexFull trivCollab ⟨true, none⟩ ⟨"/index.html", false⟩ st0 0).evs = 1 ∧
    countObs (runIndexFull trivCollab ⟨true, none⟩ ⟨"/index.html", false⟩ st0 0).evs = 0 ∧
    countObs (runServer trivCollab ⟨none⟩ ⟨"/index.html", false⟩ st0 0).evs = 0 :=
  ⟨by decide, by decide, by decide⟩

/-- Accounting for the dispatcher listener alone (index.js's main handler,
without the second `'request'` listener) and for `createBareHandler`: one
response per run, one observation except for a successfully served static
file, and the Tunnel default-200 observation. -/
theorem dispatcher_listener_counts (o : Collab) (ci : Http2Conn) (cs : NodeConn)
    (r : Req) (st : St) (now : Nat) :
    (countResp (runIndex o ci r st now).evs = 1 ∧
     countObs (runIndex o ci r st now).evs =
       (if classifyIndex r = "static" ∧ staticServed o = true then 0 else 1)) ∧
    ((runServer o cs r st now).threw = false →
      countResp (runServer o cs r st now).evs = 1 ∧
      countObs (runServer o cs r st now).evs =
        (if classifyServer r = "static" ∧ staticServed o = true then 0 else 1)) ∧
    (strStarts "/puppeteer?" r.url = false → strStarts "/proxy/" r.url = false →
      r.bare = true →
      (runIndex o ci r st now).evs =
        [Ev.delegated "bare", Ev.observe "bare" (o.tunnelResponded.getD 200)]) := by
  refine ⟨?_, ?_, ?_⟩
  · by_cases h1 : strStarts "/puppeteer?" r.url = true
    · have hin : runIndexInner o ci r st now =
          puppBranch o (gzDecIndex ci) r.url st now := by
        simp [runIndexInner, h1]
      have hc := puppBranch_counts o (gzDecIndex ci) r.url st now
      rw [← hin] at hc
      obtain ⟨hq1, hq2⟩ := runIndex_counts_of_branch o ci r st now hc
      have hcls : classifyIndex r = "puppeteer" := by simp [classifyIndex, h1]
      have hne : ¬(classifyIndex r = "static" ∧ staticServed o = true) := by
        intro hand
        rw [hcls] at hand
        exact absurd hand.1 (by decide)
      rw [if_neg hne]
      exact ⟨hq1, hq2⟩
    · by_cases h2 : strStarts "/proxy/" r.url = true
      · have hin : runIndexInner o ci r st now =
            decodeBranch o (gzDecIndex ci) (targetIndex r.url) st now := by
          simp [runIndexInner, h1, h2]
        have hc := decodeBranch_counts o (gzDecIndex ci) (targetIndex r.url) st now
        rw [← hin] at hc
        obtain ⟨hq1, hq2⟩ := runIndex_counts_of_branch o ci r st now hc
        have hcls : classifyIndex r = "decode" := by simp [classifyIndex, h1, h2]
        have hne : ¬(classifyIndex r = "static" ∧ staticServed o = true) := by
          intro hand
          rw [hcls] at hand
          exact absurd hand.1 (by decide)
        rw [if_neg hne]
        exact ⟨hq1, hq2⟩
      · by_cases hb : r.bare = true
        · have hin : runIndexInner o ci r st now =
              ⟨[Ev.delegated "bare", Ev.observe "bare" (o.tunnelResponded.getD 200)],
                st, false⟩ := by
            simp [runIndexInner, h1, h2, hb]
          have hc : countResp (runIndexInner o ci r st now).evs =
              (if (runIndexInner o ci r st now).threw then 0 else 1) ∧
              countObs (runIndexInner o ci r st now).evs =
              (if (runIndexInner o ci r st now).threw then 0 else 1) := by
            rw [hin]
            exact ⟨rfl, rfl⟩
          obtain ⟨hq1, hq2⟩ := runIndex_counts_of_branch o ci r st now hc
          have hcls : classifyIndex r = "bare" := by simp [classifyIndex, h1, h2, hb]
          have hne : ¬(classifyIndex r = "static" ∧ staticServed o = true) := by
            intro hand
            rw [hcls] at hand
            exact absurd hand.1 (by decide)
          rw [if_neg hne]
          exact ⟨hq1, hq2⟩
        · have hin : runIndexInner o ci r st now = staticBranch o st := by
            simp [runIndexInner, h1, h2, hb]
          have hcls : classifyIndex r = "static" := by simp [classifyIndex, h1, h2, hb]
          obtain ⟨hstw, hsr, hso⟩ := staticBranch_counts o st
          have heq : runIndex o ci r st now = staticBranch o st := by
            simp [runIndex, hin, hstw]
          rw [heq, hcls, hsr, hso]
          refine ⟨rfl, ?_⟩
          cases hsv : staticServed o <;> simp [hsv]
  · intro hth
    by_cases h1 : strStarts "/puppeteer?" r.url = true
    · have hsv : runServer o cs r st now = puppBranch o (gzDecServer cs) r.url st now := by
        simp [runServer, classifyServer, h1]
      obtain ⟨hcr, hco⟩ := puppBranch_counts o (gzDecServer cs) r.url st now
      rw [hsv] at hth
      have hcls : classifyServer r = "puppeteer" := by simp [classifyServer, h1]
      have hne : ¬(classifyServer r = "static" ∧ staticServed o = true) := by
        intro hand
        rw [hcls] at hand
        exact absurd hand.1 (by decide)
      rw [if_neg hne, hsv, hcr, hco, hth]
      exact ⟨rfl, rfl⟩
    · by_cases h2 : strStarts "/proxy/" r.url = true
      · have hsv : runServer o cs r st now =
            decodeBranch o (gzDecServer cs) (targetServer r.url) st now := by
          simp [runServer, classifyServer, h1, h2]
        obtain ⟨hcr, hco⟩ := decodeBranch_counts o (gzDecServer cs) (targetServer r.url) st now
        rw [hsv] at hth
        have hcls : classifyServer r = "decode" := by simp [classifyServer, h1, h2]
        have hne : ¬(classifyServer r = "static" ∧ staticServed o = true) := by
          intro hand
          rw [hcls] at hand
          exact absurd hand.1 (by decide)
        rw [if_neg hne, hsv, hcr, hco, hth]
        exact ⟨rfl, rfl⟩
      · by_cases hb : r.bare = true
        · have hsv : runServer o cs r st now =
              ⟨[Ev.delegated "bare", Ev.observe "bare" 200], st, false⟩ := by
            simp [runServer, classifyServer, h1, h2, hb]
          have hcls : classifyServer r = "bare" := by simp [classifyServer, h1, h2, hb]
          have hne : ¬(classifyServer r = "static" ∧ staticServed o = true) := by
            intro hand
            rw [hcls] at hand
            exact absurd hand.1 (by decide)
          rw [if_neg hne, hsv]
          exact ⟨rfl, rfl⟩
        · by_cases hmet : r.url = "/metrics"
          · have hcls : classifyServer r = "metrics" := by
              unfold classifyServer
              rw [if_neg h1, if_neg h2, if_neg hb, if_pos (by rw [hmet]; rfl)]
            have hsv : runServer o cs r st now =
                ⟨[Ev.respond 200 o.metricsBody false, Ev.observe "metrics" 200],
                  st, false⟩ := by
              simp only [runServer]
              rw [hcls]
              rfl
            have hne : ¬(classifyServer r = "static" ∧ staticServed o = true) := by
              intro hand
              rw [hcls] at hand
              exact absurd hand.1 (by decide)
            rw [if_neg hne, hsv]
            exact ⟨rfl, rfl⟩
          · have hsv : runServer o cs r st now = staticBranch o st := by
              simp [runServer, classifyServer, h1, h2, hb, hmet]
            have hcls : classifyServer r = "static" := by
              simp [classifyServer, h1, h2, hb, hmet]
            obtain ⟨hstw, hsr, hso⟩ := staticBranch_counts o st
            rw [hsv, hcls, hsr, hso]
            refine ⟨rfl, ?_⟩
            cases hsvv : staticServed o <;> simp [hsvv]
  · intro h1 h2 hb
    simp [runIndex, runIndexInner, h1, h2, hb]

/-- C2 amended, over the complete index.js request path (dispatcher
listener composed with the `/metrics` listener) and `createBareHandler`:
on every non-`/metrics` URL, index.js produces exactly one response and
exactly one observation except for a successfully served static file,
which records none; on `/metrics` (not tunnel-owned) two response-producing
actors touch the one response — the dispatcher's static delegation and the
metrics listener's own end — and no observation at all is recorded; the
single-process variant produces one response and one observation (static
success aside) whenever no exception escapes it; and a delegated Tunnel
request observes the adapter's outcome, defaulting to 200 when unknown. -/
theorem one_response_one_observation (o : Collab) (ci : Http2Conn) (cs : NodeConn)
    (r : Req) (st : St) (now : Nat) :
    (r.url ≠ "/metrics" →
      countResp (runIndexFull o ci r st now).evs = 1 ∧
      countObs (runIndexFull o ci r st now).evs =
        (if classifyIndex r = "static" ∧ staticServed o = true then 0 else 1)) ∧
    (r.url = "/metrics" → r.bare = false →
      runIndexFull o ci r st now =
        ⟨[Ev.delegated "static", Ev.respond 200 o.metricsBody false], st, false⟩ ∧
      countObs (runIndexFull o ci r st now).evs = 0) ∧
    ((runServer o cs r st now).threw = false →
      countResp (runServer o cs r st now).evs = 1 ∧
      countObs (runServer o cs r st now).evs =
        (if classifyServer r = "static" ∧ staticServed o = true then 0 else 1)) ∧
    (strStarts "/puppeteer?" r.url = false → strStarts "/proxy/" r.url = false →
      r.bare = true → r.url ≠ "/metrics" →
      (runIndexFull o ci r st now).evs =
        [Ev.delegated "bare", Ev.observe "bare" (o.tunnelResponded.getD 200)]) := by
  obtain ⟨hidx, hsrv, hbare⟩ := dispatcher_listener_counts o ci cs r st now
  refine ⟨?_, ?_, hsrv, ?_⟩
  · intro hmet
    have hfe : runIndexFull o ci r st now =
        ⟨(runIndex o ci r st now).evs ++ metricsListener o r,
         (runIndex o ci r st now).st, (runIndex o ci r st now).threw⟩ := by
      unfold runIndexFull
      rw [if_neg (by simp [hmet])]
    have hml : metricsListener o r = [] := by
      unfold metricsListener
      rw [if_neg (by simp [hmet])]
    constructor
    · simp only [hfe, hml, List.append_nil]
      exact hidx.1
    · simp only [hfe, hml, List.append_nil]
      exact hidx.2
  · intro hmet hb
    have he : runIndexFull o ci r st now =
        ⟨[Ev.delegated "static", Ev.respond 200 o.metricsBody false], st, false⟩ := by
      unfold runIndexFull metricsListener
      rw [if_pos (by rw [hmet]; rfl), if_neg (by simp [hb]), if_pos (by rw [hmet]; rfl)]
      rfl
    refine ⟨he, ?_⟩
    simp only [he]
    rfl
  · intro h1 h2 hb hmet
    have hfe : runIndexFull o ci r st now =
        ⟨(runIndex o ci r st now).evs ++ metricsListener o r,
         (runIndex o ci r st now).st, (runIndex o ci r st now).threw⟩ := by
      unfold runIndexFull
      rw [if_neg (by simp [hmet])]
    have hml : metricsListener o r = [] := by
      unfold metricsListener
      rw [if_neg (by simp [hmet])]
    simp only [hfe, hml, List.append_nil]
    exact hbare h1 h2 hb

/-- Witness for C2 amended: a concrete Tunnel request and a concrete
`/metrics` request. -/
theorem one_response_one_observation_w :
    countResp (runIndexFull trivCollab ⟨true, none⟩ ⟨"/m.html", true⟩ st0 0).evs = 1 ∧
    countObs (runIndexFull trivCollab ⟨true, none⟩ ⟨"/metrics", false⟩ st0 0).evs = 0 ∧
    countResp (runServer trivCollab ⟨none⟩ ⟨"/m.html", true⟩ st0 0).evs = 1 ∧
    (runIndexFull trivCollab ⟨true, none⟩ ⟨"/m.html", true⟩ st0 0).evs =
      [Ev.delegated "bare", Ev.observe "bare" 200] :=
  ⟨((one_response_one_observation trivCollab ⟨true, none⟩ ⟨none⟩ ⟨"/m.html", true⟩
      st0 0).1 (by decide)).1,
   ((one_response_one_observation trivCollab ⟨true, none⟩ ⟨none⟩ ⟨"/metrics", false⟩
      st0 0).2.1 rfl rfl).2,
   ((one_response_one_observation trivCollab ⟨true, none⟩ ⟨none⟩ ⟨"/m.html", true⟩
      st0 0).2.2.1 (by decide)).1,
   (one_response_one_observation trivCollab ⟨true, none⟩ ⟨none⟩ ⟨"/m.html", true⟩
      st0 0).2.2.2 (by decide) (by decide) rfl (by decide)⟩

/-- C4 counterexample: in the single-process variant a failing render
backend escapes `createBareHandler` (there is no `try`/`catch`), producing
no 500 response and no observation at all, refuting "holds in every
pipeline branch of both top-level entry-point variants". -/
theorem server_variant_drops_failure :
    (runServer trivCollab ⟨none⟩ ⟨"/puppeteer?url=x", false⟩ st0 0).threw = true ∧
    countResp (runServer trivCollab ⟨none⟩ ⟨"/puppeteer?url=x", false⟩ st0 0).evs = 0 ∧
    countObs (runServer trivCollab ⟨none⟩ ⟨"/puppeteer?url=x", false⟩ st0 0).evs = 0 :=
  ⟨by decide, by decide, by decide⟩

/-- C4 amended: in index.js any exception escaping a Render or DecodeProxy
pipeline is converted by the `catch` block into exactly one 500 response
plus one 500 observation, and the handler returns normally; in the
single-process variant (`createBareHandler`) the exception instead escapes
the handler with no response and no observation recorded. -/
theorem uncaught_failure_degrades_to_500 (o : Collab) (ci : Http2Conn) (cs : NodeConn)
    (r : Req) (st : St) (now : Nat)
    (hcls : strStarts "/puppeteer?" r.url = true ∨
      (strStarts "/puppeteer?" r.url = false ∧ strStarts "/proxy/" r.url = true)) :
    ((runIndexInner o ci r st now).threw = true →
      (runIndex o ci r st now).threw = false ∧
      (runIndex o ci r st now).evs =
        (runIndexInner o ci r st now).evs ++
          [Ev.respond 500 "Internal Error" false, Ev.observe (classifyIndex r) 500] ∧
      countResp (runIndex o ci r st now).evs = 1 ∧
      countObs (runIndex o ci r st now).evs = 1) ∧
    ((runServer o cs r st now).threw = true →
      countResp (runServer o cs r st now).evs = 0 ∧
      countObs (runServer o cs r st now).evs = 0) := by
  constructor
  · intro hth
    have h500 : runIndex o ci r st now =
        ⟨(runIndexInner o ci r st now).evs ++ [Ev.respond 500 "Internal Error" false,
           Ev.observe (classifyIndex r) 500], (runIndexInner o ci r st now).st, false⟩ := by
      simp [runIndex, hth]
    have hz : countResp (runIndexInner o ci r st now).evs = 0 ∧
        countObs (runIndexInner o ci r st now).evs = 0 := by
      rcases hcls with h1 | ⟨h1, h2⟩
      · have hin : runIndexInner o ci r st now =
            puppBranch o (gzDecIndex ci) r.url st now := by
          simp [runIndexInner, h1]
        obtain ⟨hcr, hco⟩ := puppBranch_counts o (gzDecIndex ci) r.url st now
        rw [hin] at hth ⊢
        rw [hcr, hco, hth]
        exact ⟨rfl, rfl⟩
      · have hin : runIndexInner o ci r st now =
            decodeBranch o (gzDecIndex ci) (targetIndex r.url) st now := by
          simp [runIndexInner, h1, h2]
        obtain ⟨hcr, hco⟩ := decodeBranch_counts o (gzDecIndex ci) (targetIndex r.url) st now
        rw [hin] at hth ⊢
        rw [hcr, hco, hth]
        exact ⟨rfl, rfl⟩
    refine ⟨by simp [h500], by simp [h500], ?_, ?_⟩
    · simp only [h500]
      rw [countResp_append, hz.1]
      rfl
    · simp only [h500]
      rw [countObs_append, hz.2]
      rfl
  · intro hth
    rcases hcls with h1 | ⟨h1, h2⟩
    · have hsv : runServer o cs r st now = puppBranch o (gzDecServer cs) r.url st now := by
        simp [runServer, classifyServer, h1]
      obtain ⟨hcr, hco⟩ := puppBranch_counts o (gzDecServer cs) r.url st now
      rw [hsv] at hth
      rw [hsv, hcr, hco, hth]
      exact ⟨rfl, rfl⟩
    · have hsv : runServer o cs r st now =
          decodeBranch o (gzDecServer cs) (targetServer r.url) st now := by
        simp [runServer, classifyServer, h1, h2]
      obtain ⟨hcr, hco⟩ := decodeBranch_counts o (gzDecServer cs) (targetServer r.url) st now
      rw [hsv] at hth
      rw [hsv, hcr, hco, hth]
      exact ⟨rfl, rfl⟩

/-- Witness for C4 amended at a concrete failing render backend. -/
theorem uncaught_failure_degrades_to_500_w :
    (runIndexInner trivCollab ⟨true, none⟩ ⟨"/puppeteer?url=x", false⟩ st0 0).threw = true ∧
    ((runIndex trivCollab ⟨true, none⟩ ⟨"/puppeteer?url=x", false⟩ st0 0).threw = false ∧
     (runIndex trivCollab ⟨true, none⟩ ⟨"/puppeteer?url=x", false⟩ st0 0).evs =
       (runIndexInner trivCollab ⟨true, none⟩ ⟨"/puppeteer?url=x", false⟩ st0 0).evs ++
         [Ev.respond 500 "Internal Error" false,
          Ev.observe (classifyIndex ⟨"/puppeteer?url=x", false⟩) 500] ∧
     countResp (runIndex trivCollab ⟨true, none⟩ ⟨"/puppeteer?url=x", false⟩ st0 0).evs = 1 ∧
     countObs (runIndex trivCollab ⟨true, none⟩ ⟨"/puppeteer?url=x", false⟩ st0 0).evs = 1) :=
  ⟨by decide,
   (uncaught_failure_degrades_to_500 trivCollab ⟨true, none⟩ ⟨none⟩
      ⟨"/puppeteer?url=x", false⟩ st0 0 (Or.inl (by decide))).1 (by decide)⟩

/-! ### C3: second identical request within the TTL window -/

/-- A cold-cache render request: both tiers miss, the backend renders, both
tiers are populated and the rendered body is sent. -/
theorem pupp_miss_run (o : Collab) (gz : Bool) (url : String) (st : St) (now : Nat)
    (t html : String) (ht : getParam url "url" = some t) (htne : t ≠ "")
    (hm : memFind st.mem ("pp:" ++ t) = none) (hr : rdsFind st.rds ("pp:" ++ t) = none)
    (hrend : o.render t = .ok html) :
    puppBranch o gz url st now =
      ⟨[Ev.memGet ("pp:" ++ t), Ev.redisGet ("pp:" ++ t), Ev.renderCall t,
         Ev.memSet ("pp:" ++ t), Ev.redisSet ("pp:" ++ t), sendEv o gz html,
         Ev.observe "puppeteer" 200], tierSet st ("pp:" ++ t) html 30 now, false⟩ := by
  have hmg : memGet st.mem now ("pp:" ++ t) = none := by
    unfold memGet
    rw [hm]
  have hrg : redisGetF st.rds now ("pp:" ++ t) = none := by
    unfold redisGetF
    rw [hr]
  have htg : tierGet st now ("pp:" ++ t) =
      (none, [Ev.memGet ("pp:" ++ t), Ev.redisGet ("pp:" ++ t)]) := by
    simp [tierGet, hmg, hrg, jsTruthy, jsOr]
  unfold puppBranch
  simp only [ht]
  rw [if_neg htne, htg]
  rw [if_neg (by simp [jsTruthy])]
  simp only [hrend]
  rfl

/-- A warm-cache render request: the local tier hits and the cached body is
sent with no backend invocation and no state change. -/
theorem pupp_hit_run (o : Collab) (gz : Bool) (url : String) (st : St) (now : Nat)
    (t v : String) (ht : getParam url "url" = some t) (htne : t ≠ "")
    (htg : tierGet st now ("pp:" ++ t) = (some v, [Ev.memGet ("pp:" ++ t)]))
    (hvne : v ≠ "") :
    puppBranch o gz url st now =
      ⟨[Ev.memGet ("pp:" ++ t), sendEv o gz v, Ev.observe "puppeteer" 200], st, false⟩ := by
  unfold puppBranch
  simp only [ht]
  rw [if_neg htne, htg]
  rw [if_pos (by simp [jsTruthy, hvne])]
  rfl

/-- A cold-cache decode-proxy request: both tiers miss, the page is fetched,
decoded and normalized, both tiers are populated and the text is sent. -/
theorem decode_miss_run (o : Collab) (gz : Bool) (target : String) (st : St) (now : Nat)
    (raw : String) (rsp : FetchResp)
    (hm : memFind st.mem ("px:" ++ target) = none)
    (hr : rdsFind st.rds ("px:" ++ target) = none)
    (hf : o.fetchPage target = .ok rsp)
    (hd : decodeText o.mkDecoder (extractCharset rsp.contentType) rsp.body = some raw) :
    decodeBranch o gz target st now =
      ⟨[Ev.memGet ("px:" ++ target), Ev.redisGet ("px:" ++ target), Ev.fetchCall target,
         Ev.memSet ("px:" ++ target), Ev.redisSet ("px:" ++ target),
         sendEv o gz (normalizeMeta raw), Ev.observe "decode" 200],
       tierSet st ("px:" ++ target) (normalizeMeta raw) 60 now, false⟩ := by
  have hmg : memGet st.mem now ("px:" ++ target) = none := by
    unfold memGet
    rw [hm]
  have hrg : redisGetF st.rds now ("px:" ++ target) = none := by
    unfold redisGetF
    rw [hr]
  have htg : tierGet st now ("px:" ++ target) =
      (none, [Ev.memGet ("px:" ++ target), Ev.redisGet ("px:" ++ target)]) := by
    simp [tierGet, hmg, hrg, jsTruthy, jsOr]
  simp only [decodeBranch]
  rw [htg]
  rw [if_neg (by simp [jsTruthy])]
  simp only [hf]
  rw [hd]
  rfl

/-- A warm-cache decode-proxy request: the local tier hits and the cached
text is sent with no outbound fetch and no state change. -/
theorem decode_hit_run (o : Collab) (gz : Bool) (target : String) (st : St) (now : Nat)
    (v : String)
    (htg : tierGet st now ("px:" ++ target) = (some v, [Ev.memGet ("px:" ++ target)]))
    (hvne : v ≠ "") :
    decodeBranch o gz target st now =
      ⟨[Ev.memGet ("px:" ++ target), sendEv o gz v, Ev.observe "decode" 200], st, false⟩ := by
  simp only [decodeBranch]
  rw [htg]
  rw [if_pos (by simp [jsTruthy, hvne])]
  rfl

/-- C3 counterexample: a render backend returning the empty string defeats
the truthiness hit-test, so the same target requested twice in immediate
succession (well within the TTL window) invokes the backend twice —
refuting "invoked at most once" as universally stated. -/
theorem empty_body_refetches_twice :
    1000 ≤ memTtlMs ∧
    countRender ((runIndex emptyRenderCollab ⟨true, none⟩ ⟨"/puppeteer?url=x", false⟩
        st0 0).evs ++
      (runIndex emptyRenderCollab ⟨true, none⟩ ⟨"/puppeteer?url=x", false⟩
        (runIndex emptyRenderCollab ⟨true, none⟩ ⟨"/puppeteer?url=x", false⟩ st0 0).st
        1000).evs) = 2 :=
  ⟨by decide, by decide⟩

/-- C3 amended: when the rendered (resp. fetched-and-normalized) body is
non-empty, two sequential identical requests within the local TTL window
invoke the backend (resp. the outbound fetch) exactly once starting from a
cold key, the second being served from cache, and both runs send the same
response bodies. -/
theorem cache_hit_second_request :
    (∀ (o : Collab) (ci : Http2Conn) (r : Req) (st : St) (now now2 : Nat)
        (t html : String),
      strStarts "/puppeteer?" r.url = true →
      getParam r.url "url" = some t → t ≠ "" →
      memFind st.mem ("pp:" ++ t) = none → rdsFind st.rds ("pp:" ++ t) = none →
      o.render t = .ok html → html ≠ "" →
      now2 - now ≤ memTtlMs →
      countRender ((runIndex o ci r st now).evs ++
        (runIndex o ci r (runIndex o ci r st now).st now2).evs) = 1 ∧
      respBodies (runIndex o ci r (runIndex o ci r st now).st now2).evs =
        respBodies (runIndex o ci r st now).evs) ∧
    (∀ (o : Collab) (ci : Http2Conn) (r : Req) (st : St) (now now2 : Nat)
        (raw : String) (rsp : FetchResp),
      strStarts "/puppeteer?" r.url = false →
      strStarts "/proxy/" r.url = true →
      memFind st.mem ("px:" ++ targetIndex r.url) = none →
      rdsFind st.rds ("px:" ++ targetIndex r.url) = none →
      o.fetchPage (targetIndex r.url) = .ok rsp →
      decodeText o.mkDecoder (extractCharset rsp.contentType) rsp.body = some raw →
      normalizeMeta raw ≠ "" →
      now2 - now ≤ memTtlMs →
      countFetch ((runIndex o ci r st now).evs ++
        (runIndex o ci r (runIndex o ci r st now).st now2).evs) = 1 ∧
      respBodies (runIndex o ci r (runIndex o ci r st now).st now2).evs =
        respBodies (runIndex o ci r st now).evs) := by
  constructor
  · intro o ci r st now now2 t html hp ht htne hm hr hrend hne h2
    have e1b := pupp_miss_run o (gzDecIndex ci) r.url st now t html ht htne hm hr hrend
    have hin1 : runIndexInner o ci r st now = puppBranch o (gzDecIndex ci) r.url st now := by
      simp [runIndexInner, hp]
    have e1 : runIndex o ci r st now =
        ⟨[Ev.memGet ("pp:" ++ t), Ev.redisGet ("pp:" ++ t), Ev.renderCall t,
           Ev.memSet ("pp:" ++ t), Ev.redisSet ("pp:" ++ t), sendEv o (gzDecIndex ci) html,
           Ev.observe "puppeteer" 200], tierSet st ("pp:" ++ t) html 30 now, false⟩ := by
      simp only [runIndex, hin1, e1b]
      rfl
    have hst1 : (runIndex o ci r st now).st = tierSet st ("pp:" ++ t) html 30 now := by
      simp only [e1]
    have htg2 := tierGet_after_set st ("pp:" ++ t) html 30 now now2 h2 hne
    have e2b := pupp_hit_run o (gzDecIndex ci) r.url
      (tierSet st ("pp:" ++ t) html 30 now) now2 t html ht htne htg2 hne
    have hin2 : runIndexInner o ci r (tierSet st ("pp:" ++ t) html 30 now) now2 =
        puppBranch o (gzDecIndex ci) r.url (tierSet st ("pp:" ++ t) html 30 now) now2 := by
      simp [runIndexInner, hp]
    have e2 : runIndex o ci r (runIndex o ci r st now).st now2 =
        ⟨[Ev.memGet ("pp:" ++ t), sendEv o (gzDecIndex ci) html,
           Ev.observe "puppeteer" 200], tierSet st ("pp:" ++ t) html 30 now, false⟩ := by
      rw [hst1]
      simp only [runIndex, hin2, e2b]
      rfl
    constructor
    · rw [e2, e1]
      cases hgz : gzDecIndex ci <;> rfl
    · rw [e2, e1]
      cases hgz : gzDecIndex ci <;> rfl
  · intro o ci r st now now2 raw rsp hnp hp hm hr hf hd hne h2
    have e1b := decode_miss_run o (gzDecIndex ci) (targetIndex r.url) st now raw rsp
      hm hr hf hd
    have hin1 : runIndexInner o ci r st now =
        decodeBranch o (gzDecIndex ci) (targetIndex r.url) st now := by
      simp [runIndexInner, hnp, hp]
    have e1 : runIndex o ci r st now =
        ⟨[Ev.memGet ("px:" ++ targetIndex r.url), Ev.redisGet ("px:" ++ targetIndex r.url),
           Ev.fetchCall (targetIndex r.url), Ev.memSet ("px:" ++ targetIndex r.url),
           Ev.redisSet ("px:" ++ targetIndex r.url),
           sendEv o (gzDecIndex ci) (normalizeMeta raw), Ev.observe "decode" 200],
         tierSet st ("px:" ++ targetIndex r.url) (normalizeMeta raw) 60 now, false⟩ := by
      simp only [runIndex, hin1, e1b]
      rfl
    have hst1 : (runIndex o ci r st now).st =
        tierSet st ("px:" ++ targetIndex r.url) (normalizeMeta raw) 60 now := by
      simp only [e1]
    have htg2 := tierGet_after_set st ("px:" ++ targetIndex r.url) (normalizeMeta raw)
      60 now now2 h2 hne
    have e2b := decode_hit_run o (gzDecIndex ci) (targetIndex r.url)
      (tierSet st ("px:" ++ targetIndex r.url) (normalizeMeta raw) 60 now) now2
      (normalizeMeta raw) htg2 hne
    have hin2 : runIndexInner o ci r
        (tierSet st ("px:" ++ targetIndex r.url) (normalizeMeta raw) 60 now) now2 =
        decodeBranch o (gzDecIndex ci) (targetIndex r.url)
          (tierSet st ("px:" ++ targetIndex r.url) (normalizeMeta raw) 60 now) now2 := by
      simp [runIndexInner, hnp, hp]
    have e2 : runIndex o ci r (runIndex o ci r st now).st now2 =
        ⟨[Ev.memGet ("px:" ++ targetIndex r.url),
           sendEv o (gzDecIndex ci) (normalizeMeta raw), Ev.observe "decode" 200],
         tierSet st ("px:" ++ targetIndex r.url) (normalizeMeta raw) 60 now, false⟩ := by
      rw [hst1]
      simp only [runIndex, hin2, e2b]
      rfl
    constructor
    · rw [e2, e1]
      cases hgz : gzDecIndex ci <;> rfl
    · rw [e2, e1]
      cases hgz : gzDecIndex ci <;> rfl

/-- Witness for C3 amended: a concrete render target and a concrete proxy
target, each requested twice one second apart. -/
theorem cache_hit_second_request_w :
    (countRender ((runIndex okCollab ⟨true, none⟩ ⟨"/puppeteer?url=x", false⟩ st0 0).evs ++
       (runIndex okCollab ⟨true, none⟩ ⟨"/puppeteer?url=x", false⟩
         (runIndex okCollab ⟨true, none⟩ ⟨"/puppeteer?url=x", false⟩ st0 0).st 1000).evs) = 1 ∧
     respBodies (runIndex okCollab ⟨true, none⟩ ⟨"/puppeteer?url=x", false⟩
         (runIndex okCollab ⟨true, none⟩ ⟨"/puppeteer?url=x", false⟩ st0 0).st 1000).evs =
       respBodies (runIndex okCollab ⟨true, none⟩ ⟨"/puppeteer?url=x", false⟩ st0 0).evs) ∧
    (countFetch ((runIndex okCollab ⟨true, none⟩ ⟨"/proxy/ex.com", false⟩ st0 0).evs ++
       (runIndex okCollab ⟨true, none⟩ ⟨"/proxy/ex.com", false⟩
         (runIndex okCollab ⟨true, none⟩ ⟨"/proxy/ex.com", false⟩ st0 0).st 1000).evs) = 1 ∧
     respBodies (runIndex okCollab ⟨true, none⟩ ⟨"/proxy/ex.com", false⟩
         (runIndex okCollab ⟨true, none⟩ ⟨"/proxy/ex.com", false⟩ st0 0).st 1000).evs =
       respBodies (runIndex okCollab ⟨true, none⟩ ⟨"/proxy/ex.com", false⟩ st0 0).evs) :=
  ⟨cache_hit_second_request.1 okCollab ⟨true, none⟩ ⟨"/puppeteer?url=x", false⟩ st0 0 1000
     "x" "<p>Hi</p>" (by decide) (by decide) (by decide) rfl rfl rfl (by decide) (by decide),
   cache_hit_second_request.2 okCollab ⟨true, none⟩ ⟨"/proxy/ex.com", false⟩ st0 0 1000
     "<p>H</p>" ⟨some "text/html", [72]⟩ (by decide) (by decide) rfl rfl rfl rfl
     (by decide) (by decide)⟩

end Kyo
